import Mathlib

/-!
Verification of the perc-webrtc RTP header-extension codecs and the
double-encryption (PERC) payload protection engines.

The development shallowly embeds the C++ sources:
  * `modules/rtp_rtcp/source/rtp_header_extensions.cc` (extension codecs),
  * `modules/rtp_rtcp/source/double_perc.cc` (short-OHB engine `DoublePERC`),
  * `webrtc/modules/rtp_rtcp/source/media_crypto.cc` (long-OHB engine
    `MediaCrypto`).

Bytes are `Nat` values below 256; buffers are `List Nat`.  Machine-integer
shifts and masks are rendered arithmetically: `x >> k` as `x / 2^k`,
`x & (2^k - 1)` as `x % 2^k`, a single-bit test `(x & 2^i) != 0` as
`Nat.testBit x i`, and a store into a `uint8_t` as `% 256`.  Bitwise or of
operands is kept as `Nat.lor` (written `|||`).

The external libsrtp engine (an excluded collaborator: the sources only call
`srtp_protect` / `srtp_unprotect` / `srtp_create`) is modelled by a record of
functions `SrtpCtx`; theorems that need the engine to behave like real SRTP
assume `SrtpCtx.Lossless`, i.e. that unprotect inverts protect and that
protect appends exactly the authentication tag.
-/

/-- Big-endian read of two bytes (`ByteReader<uint16_t>::ReadBigEndian`). -/
def readBE2 (b0 b1 : Nat) : Nat := b0 * 256 + b1

/-- Big-endian read of three bytes (`ByteReader<uint32_t,3>::ReadBigEndian`). -/
def readBE3 (b0 b1 b2 : Nat) : Nat := (b0 * 256 + b1) * 256 + b2

/-- Big-endian write of the low 16 bits of a value
(`ByteWriter<uint16_t>::WriteBigEndian`). -/
def writeBE2 (v : Nat) : List Nat := [v / 256 % 256, v % 256]

/-- Big-endian write of the low 24 bits of a value
(`ByteWriter<uint32_t,3>::WriteBigEndian`). -/
def writeBE3 (v : Nat) : List Nat := [v / 65536 % 256, v / 256 % 256, v % 256]

/-- Bitwise or with a value below `2 ^ k` is addition when the other operand
is a multiple of `2 ^ k`. -/
theorem lor_two_pow_mul_eq_add (k a b : Nat) (h : b < 2 ^ k) :
    (2 ^ k * a) ||| b = 2 ^ k * a + b := by
  apply Nat.eq_of_testBit_eq
  intro i
  rw [Nat.testBit_lor]
  rcases Nat.lt_or_ge i k with hi | hi
  · have h1 : Nat.testBit (2 ^ k * a) i = false := by
      have e : 2 ^ k * a = a <<< k := by rw [Nat.shiftLeft_eq]; ring
      rw [e, Nat.testBit_shiftLeft]
      simp [Nat.not_le.mpr hi]
    have hm : (2 ^ k * a + b) % 2 ^ k = b := by
      rw [Nat.mul_add_mod, Nat.mod_eq_of_lt h]
    have t1 : Nat.testBit ((2 ^ k * a + b) % 2 ^ k) i
        = Nat.testBit (2 ^ k * a + b) i := by
      rw [Nat.testBit_mod_two_pow]
      simp [hi]
    rw [h1, Bool.false_or, ← t1, hm]
  · obtain ⟨j, rfl⟩ : ∃ j, i = k + j := ⟨i - k, by omega⟩
    have hb : Nat.testBit b (k + j) = false := by
      apply Nat.testBit_lt_two_pow
      calc b < 2 ^ k := h
        _ ≤ 2 ^ (k + j) := Nat.pow_le_pow_right (by omega) (by omega)
    rw [hb, Bool.or_false, ← Nat.testBit_shiftRight, ← Nat.testBit_shiftRight]
    have e1 : (2 ^ k * a) >>> k = a := by
      rw [Nat.shiftRight_eq_div_pow, Nat.mul_div_cancel_left _ (Nat.two_pow_pos k)]
    have e2 : (2 ^ k * a + b) >>> k = a := by
      rw [Nat.shiftRight_eq_div_pow, Nat.mul_add_div (Nat.two_pow_pos k),
        Nat.div_eq_of_lt h, Nat.add_zero]
    rw [e1, e2]

/-- `AbsoluteSendTime::Parse`: requires exactly 3 bytes, reads a big-endian
24-bit value. -/
def AbsoluteSendTime.Parse (data : List Nat) : Option Nat :=
  match data with
  | [b0, b1, b2] => some (readBE3 b0 b1 b2)
  | _ => none

/-- `AbsoluteSendTime::Write`: writes the 24-bit value big-endian
(the source `RTC_DCHECK`s `time_24bits <= 0xFFFFFF`). -/
def AbsoluteSendTime.Write (time_24bits : Nat) : List Nat :=
  writeBE3 time_24bits

/-- `AudioLevel::Parse`: requires exactly 1 byte; bit 7 is the
voice-activity flag (`data[0] & 0x80`), bits 0-6 the level
(`data[0] & 0x7F`). -/
def AudioLevel.Parse (data : List Nat) : Option (Bool × Nat) :=
  match data with
  | [b0] => some (Nat.testBit b0 7, b0 % 128)
  | _ => none

/-- `AudioLevel::Write`: one byte, `(voice_activity ? 0x80 : 0x00) | level`
(the source `RTC_CHECK`s `audio_level <= 0x7f`). -/
def AudioLevel.Write (voice_activity : Bool) (audio_level : Nat) : List Nat :=
  [((if voice_activity then 128 else 0) ||| audio_level) % 256]

/-- `TransmissionOffset::Parse`: requires exactly 3 bytes, reads a
sign-extended big-endian 24-bit value. -/
def TransmissionOffset.Parse (data : List Nat) : Option Int :=
  match data with
  | [b0, b1, b2] =>
    let n := readBE3 b0 b1 b2
    some (if n < 8388608 then (n : Int) else (n : Int) - 16777216)
  | _ => none

/-- `TransmissionOffset::Write`: writes the low 24 bits of the two's
complement representation big-endian. -/
def TransmissionOffset.Write (rtp_time : Int) : List Nat :=
  writeBE3 (rtp_time % 16777216).toNat

/-- `TransportSequenceNumber::Parse`: requires exactly 2 bytes, reads an
unsigned big-endian 16-bit value. -/
def TransportSequenceNumber.Parse (data : List Nat) : Option Nat :=
  match data with
  | [b0, b1] => some (readBE2 b0 b1)
  | _ => none

/-- `TransportSequenceNumber::Write`: writes the 16-bit value big-endian. -/
def TransportSequenceNumber.Write (value : Nat) : List Nat :=
  writeBE2 value

/-- `VideoOrientation::Parse` (raw-byte overload, lines 170-176): requires
exactly 1 byte and returns it verbatim. -/
def VideoOrientation.Parse (data : List Nat) : Option Nat :=
  match data with
  | [b0] => some b0
  | _ => none

/-- `VideoOrientation::Write` (raw-byte overload): stores the byte. -/
def VideoOrientation.Write (value : Nat) : List Nat :=
  [value % 256]

/-- PlayoutDelay value (`min_ms`, `max_ms`), the parsed result of the
playout-delay extension.  The C++ struct uses `int` fields; only the
non-negative legal domain is relevant here. -/
structure PlayoutDelay where
  min_ms : Nat
  max_ms : Nat
deriving DecidableEq, Repr

/-- Modelled from the spec: `PlayoutDelayLimits::kGranularityMs` lives in the
header `rtp_header_extensions.h`, which is not among the sources; the spec
fixes the granularity at 10 ms. -/
def PlayoutDelayLimits.kGranularityMs : Nat := 10

/-- `PlayoutDelayLimits::Parse`: requires exactly 3 bytes; reads a 24-bit
big-endian value, splits it as `min_raw = raw >> 12`,
`max_raw = raw & 0xfff`, rejects `min_raw > max_raw`, and scales by the
granularity. -/
def PlayoutDelayLimits.Parse (data : List Nat) : Option PlayoutDelay :=
  match data with
  | [b0, b1, b2] =>
    let raw := readBE3 b0 b1 b2
    let min_raw := raw / 4096
    let max_raw := raw % 4096
    if min_raw > max_raw then none
    else some ⟨min_raw * PlayoutDelayLimits.kGranularityMs,
      max_raw * PlayoutDelayLimits.kGranularityMs⟩
  | _ => none

/-- `PlayoutDelayLimits::Write`: divides both delays by the granularity and
writes `(min_delay << 12) | max_delay` as a big-endian 24-bit value (the
source `RTC_DCHECK`s `0 <= min_ms <= max_ms <= kMaxMs`). -/
def PlayoutDelayLimits.Write (playout_delay : PlayoutDelay) : List Nat :=
  let min_delay := playout_delay.min_ms / PlayoutDelayLimits.kGranularityMs
  let max_delay := playout_delay.max_ms / PlayoutDelayLimits.kGranularityMs
  writeBE3 ((min_delay <<< 12) ||| max_delay)

/-- Modelled from the spec: the `VideoContentType` enum cardinality
(`TOTAL_CONTENT_TYPES`) lives in `api/video/video_content_type.h`, which is
not among the sources; the parser only needs that it is a fixed bound. -/
def VideoContentTypeExtension.kTotalContentTypes : Nat := 2

/-- `VideoContentTypeExtension::Parse`: succeeds only on a 1-byte buffer
whose value is below the enum cardinality. -/
def VideoContentTypeExtension.Parse (data : List Nat) : Option Nat :=
  match data with
  | [b0] =>
    if b0 < VideoContentTypeExtension.kTotalContentTypes then some b0 else none
  | _ => none

/-- VideoSendTiming: six 16-bit millisecond deltas plus the
`is_timing_frame` flag, as consumed and produced by
`VideoTimingExtension`.  Field names (including the `timstamp` spelling)
follow the source. -/
structure VideoSendTiming where
  encode_start_delta_ms : Nat
  encode_finish_delta_ms : Nat
  packetization_finish_delta_ms : Nat
  pacer_exit_delta_ms : Nat
  network_timstamp_delta_ms : Nat
  network2_timstamp_delta_ms : Nat
  is_timing_frame : Bool
deriving DecidableEq, Repr

/-- `VideoTimingExtension::Parse`: requires exactly 12 bytes; reads six
big-endian 16-bit deltas at offsets 0,2,4,6,8,10 and sets
`is_timing_frame := true`. -/
def VideoTimingExtension.Parse (data : List Nat) : Option VideoSendTiming :=
  match data with
  | [b0, b1, b2, b3, b4, b5, b6, b7, b8, b9, b10, b11] =>
    some { encode_start_delta_ms := readBE2 b0 b1
           encode_finish_delta_ms := readBE2 b2 b3
           packetization_finish_delta_ms := readBE2 b4 b5
           pacer_exit_delta_ms := readBE2 b6 b7
           network_timstamp_delta_ms := readBE2 b8 b9
           network2_timstamp_delta_ms := readBE2 b10 b11
           is_timing_frame := true }
  | _ => none

/-- `VideoTimingExtension::Write` (struct overload): writes the first four
deltas big-endian and zero-fills the two reserved network-timestamp slots. -/
def VideoTimingExtension.Write (timing : VideoSendTiming) : List Nat :=
  writeBE2 timing.encode_start_delta_ms ++
  writeBE2 timing.encode_finish_delta_ms ++
  writeBE2 timing.packetization_finish_delta_ms ++
  writeBE2 timing.pacer_exit_delta_ms ++
  writeBE2 0 ++ writeBE2 0

/-- FrameMarks, the out-parameter of `FrameMarking::Parse`; field names and
defaults follow `api/rtp_headers.h` (`tl0_pic_idx` is an `int16_t` there but
the parser only ever stores one byte). -/
structure FrameMarks where
  start_of_frame : Bool := false
  end_of_frame : Bool := false
  independent : Bool := false
  discardable : Bool := false
  base_layer_sync : Bool := false
  temporal_layer_id : Nat := 0
  layer_id : Nat := 0
  tl0_pic_idx : Nat := 0
deriving DecidableEq, Repr

/-- `FrameMarking::Parse`, modelled as a transformer of the caller's
`FrameMarks` out-parameter to capture exactly which fields each path
writes: an empty buffer fails untouched; otherwise the four top-bit flags
of byte 0 are written first, then length 1 clears the scalability fields,
length 3 fills them from bytes 0-2, and any other length fails *after*
the flag writes. -/
def FrameMarking.Parse (data : List Nat) (frame_marks : FrameMarks) :
    Bool × FrameMarks :=
  match data with
  | [] => (false, frame_marks)
  | b0 :: rest =>
    let fm := { frame_marks with
      start_of_frame := Nat.testBit b0 7
      end_of_frame := Nat.testBit b0 6
      independent := Nat.testBit b0 5
      discardable := Nat.testBit b0 4 }
    match rest with
    | [] =>
      (true, { fm with
        base_layer_sync := false
        temporal_layer_id := 0
        layer_id := 0
        tl0_pic_idx := 0 })
    | [b1, b2] =>
      (true, { fm with
        base_layer_sync := Nat.testBit b0 3
        temporal_layer_id := b0 % 8
        layer_id := b1
        tl0_pic_idx := b2 })
    | _ => (false, fm)

/-- Status subset of `srtp_err_status_t` that the sources branch on:
`srtp_err_status_ok`, `srtp_err_status_replay_fail`, and any other error. -/
inductive SrtpStatus where
  | ok
  | replay_fail
  | other
deriving DecidableEq, Repr

/-- Model of a live libsrtp session handle (the excluded external crypto
engine).  `protect buf in_len` / `unprotect buf in_len` return the status,
the buffer contents after the in-place call, and the value left in
`*out_len` (which the callers preset to `in_len`). -/
structure SrtpCtx where
  protect : List Nat → Nat → SrtpStatus × List Nat × Nat
  unprotect : List Nat → Nat → SrtpStatus × List Nat × Nat

/-- A keyed engine behaving like real SRTP on buffers whose meaningful
prefix is `in_len`: protect never fails, appends exactly `tag`
authentication bytes, leaves byte 0 (the RTP version byte, which SRTP never
encrypts) in place, and unprotect inverts protect. -/
def SrtpCtx.Lossless (ctx : SrtpCtx) (tag : Nat) : Prop :=
  (∀ b n, b.length = n → (ctx.protect b n).1 = SrtpStatus.ok) ∧
  (∀ b n, b.length = n → (ctx.protect b n).2.2 = n + tag) ∧
  (∀ b n, b.length = n → (ctx.protect b n).2.1.length = n + tag) ∧
  (∀ b n, b.length = n → 0 < n → (ctx.protect b n).2.1.head? = b.head?) ∧
  (∀ b n, b.length = n →
    ctx.unprotect (ctx.protect b n).2.1 (n + tag) = (SrtpStatus.ok, b, n))

/-- A lossless engine usable in witnesses: protect appends `tag` zero bytes
and unprotect drops them. -/
def idealCtx (tag : Nat) : SrtpCtx where
  protect := fun b n => (SrtpStatus.ok, b ++ List.replicate tag 0, n + tag)
  unprotect := fun b n => (SrtpStatus.ok, b.take (n - tag), n - tag)

/-- The witness engine satisfies the `Lossless` contract. -/
theorem idealCtx_lossless (tag : Nat) : (idealCtx tag).Lossless tag := by
  refine ⟨fun b n h => rfl, fun b n h => rfl, ?_, ?_, ?_⟩
  · intro b n h
    simp [idealCtx, h]
  · intro b n h hn
    cases b with
    | nil => simp at h; omega
    | cons x xs => simp [idealCtx]
  · intro b n h
    subst h
    simp [idealCtx]

/-- Private state shared by the `DoublePERC` and `MediaCrypto` classes:
the (possibly null) SRTP session handle and the two recorded auth-tag
lengths. -/
structure SrtpSessionState where
  session_ : Option SrtpCtx
  rtp_auth_tag_len_ : Nat
  rtcp_auth_tag_len_ : Nat

/-- Cipher-suite identifier `rtc::SRTP_AES128_CM_SHA1_80` (0x0001). -/
def SRTP_AES128_CM_SHA1_80 : Nat := 1

/-- Cipher-suite identifier `rtc::SRTP_AES128_CM_SHA1_32` (0x0002). -/
def SRTP_AES128_CM_SHA1_32 : Nat := 2

/-- Cipher-suite identifier `rtc::SRTP_AEAD_AES_128_GCM` (0x0007). -/
def SRTP_AEAD_AES_128_GCM : Nat := 7

/-- Cipher-suite identifier `rtc::SRTP_AEAD_AES_256_GCM` (0x0008). -/
def SRTP_AEAD_AES_256_GCM : Nat := 8

/-- RTP and RTCP auth-tag lengths installed into the policy by the libsrtp
`srtp_crypto_policy_set_*` initializers the suite dispatch calls
(HMAC-SHA1-80: 10, HMAC-SHA1-32: 4 for RTP with 10 for RTCP, GCM: 16);
`none` for an unsupported suite. -/
def suitePolicy (cs : Nat) : Option (Nat × Nat) :=
  if cs = SRTP_AES128_CM_SHA1_80 then some (10, 10)
  else if cs = SRTP_AES128_CM_SHA1_32 then some (4, 10)
  else if cs = SRTP_AEAD_AES_128_GCM then some (16, 16)
  else if cs = SRTP_AEAD_AES_256_GCM then some (16, 16)
  else none

/-- Modelled from the spec: `rtc::GetSrtpKeyAndSaltLengths` is an excluded
collaborator; per the spec each suite has a fixed (key, salt) length pair
(AES-CM-128 suites: 16+14, AES-GCM-128: 16+12, AES-GCM-256: 32+12). -/
def GetSrtpKeyAndSaltLengths (cs : Nat) : Option (Nat × Nat) :=
  if cs = SRTP_AES128_CM_SHA1_80 then some (16, 14)
  else if cs = SRTP_AES128_CM_SHA1_32 then some (16, 14)
  else if cs = SRTP_AEAD_AES_128_GCM then some (16, 12)
  else if cs = SRTP_AEAD_AES_256_GCM then some (32, 12)
  else none

/-- `MediaCrypto::SetKey`: fails if a session already exists, on an unknown
suite, on missing/mis-sized key material, or if `srtp_create` fails
(modelled by the `create` argument); on success installs the session and
records the policy's auth-tag lengths.  Returns the C++ `bool` and the
state after the call. -/
def MediaCrypto.SetKey (st : SrtpSessionState) (create : Option SrtpCtx)
    (cs : Nat) (key : Option (List Nat)) : Bool × SrtpSessionState :=
  match st.session_ with
  | some _ => (false, st)
  | none =>
    match suitePolicy cs with
    | none => (false, st)
    | some (rtpTag, rtcpTag) =>
      match GetSrtpKeyAndSaltLengths cs with
      | none => (false, st)
      | some (klen, slen) =>
        match key with
        | none => (false, st)
        | some k =>
          if k.length ≠ klen + slen then (false, st)
          else
            match create with
            | none => (false, st)
            | some ctx =>
              (true, { session_ := some ctx
                       rtp_auth_tag_len_ := rtpTag
                       rtcp_auth_tag_len_ := rtcpTag })

/-- `DoublePERC::SetKey`: textually identical logic to
`MediaCrypto::SetKey` (the classes differ only in log strings and an
`srtp_set_user_data` call). -/
def DoublePERC.SetKey (st : SrtpSessionState) (create : Option SrtpCtx)
    (cs : Nat) (key : Option (List Nat)) : Bool × SrtpSessionState :=
  match st.session_ with
  | some _ => (false, st)
  | none =>
    match suitePolicy cs with
    | none => (false, st)
    | some (rtpTag, rtcpTag) =>
      match GetSrtpKeyAndSaltLengths cs with
      | none => (false, st)
      | some (klen, slen) =>
        match key with
        | none => (false, st)
        | some k =>
          if k.length ≠ klen + slen then (false, st)
          else
            match create with
            | none => (false, st)
            | some ctx =>
              (true, { session_ := some ctx
                       rtp_auth_tag_len_ := rtpTag
                       rtcp_auth_tag_len_ := rtcpTag })

/-- `MediaCrypto::ProtectRtp`: fails without a session or when
`max_len < in_len + rtp_auth_tag_len_`; otherwise delegates to
`srtp_protect` and fails on any non-ok status.  On success returns the
protected buffer and `*out_len`. -/
def MediaCrypto.ProtectRtp (st : SrtpSessionState) (p : List Nat)
    (in_len max_len : Nat) : Option (List Nat × Nat) :=
  match st.session_ with
  | none => none
  | some ctx =>
    if max_len < in_len + st.rtp_auth_tag_len_ then none
    else
      match ctx.protect p in_len with
      | (SrtpStatus.ok, buf, out_len) => some (buf, out_len)
      | (_, _, _) => none

/-- `DoublePERC::ProtectRtp`: identical logic to
`MediaCrypto::ProtectRtp`. -/
def DoublePERC.ProtectRtp (st : SrtpSessionState) (p : List Nat)
    (in_len max_len : Nat) : Option (List Nat × Nat) :=
  match st.session_ with
  | none => none
  | some ctx =>
    if max_len < in_len + st.rtp_auth_tag_len_ then none
    else
      match ctx.protect p in_len with
      | (SrtpStatus.ok, buf, out_len) => some (buf, out_len)
      | (_, _, _) => none

/-- Which log statement an `UnprotectRtp` call executes. -/
inductive UnprotectLog where
  | silent
  | noSessionLog
  | replayLog
  | errorLog
deriving DecidableEq, Repr

/-- `MediaCrypto::UnprotectRtp`: fails without a session; on
`srtp_err_status_replay_fail` it logs "Replay failed" but *falls through
and returns true*; any other non-ok status logs an error and returns
false. -/
def MediaCrypto.UnprotectRtp (st : SrtpSessionState) (p : List Nat)
    (in_len : Nat) : Option (List Nat × Nat) × UnprotectLog :=
  match st.session_ with
  | none => (none, UnprotectLog.noSessionLog)
  | some ctx =>
    match ctx.unprotect p in_len with
    | (SrtpStatus.ok, buf, out_len) => (some (buf, out_len), UnprotectLog.silent)
    | (SrtpStatus.replay_fail, buf, out_len) =>
      (some (buf, out_len), UnprotectLog.replayLog)
    | (SrtpStatus.other, _, _) => (none, UnprotectLog.errorLog)

/-- `DoublePERC::UnprotectRtp`: fails without a session; any non-ok status
(replay included) takes the single undistinguished error branch and
returns false. -/
def DoublePERC.UnprotectRtp (st : SrtpSessionState) (p : List Nat)
    (in_len : Nat) : Option (List Nat × Nat) × UnprotectLog :=
  match st.session_ with
  | none => (none, UnprotectLog.noSessionLog)
  | some ctx =>
    match ctx.unprotect p in_len with
    | (SrtpStatus.ok, buf, out_len) => (some (buf, out_len), UnprotectLog.silent)
    | (_, _, _) => (none, UnprotectLog.errorLog)

/-- An `rtp::Packet` as consumed by the engines: the header fields the
accessors expose, the payload bytes, and the maximum payload capacity.
`AllocatePayload n` fails iff `n` exceeds `MaxPayloadSize()` (spec section
6: "resize payload to N bytes ... or failure if N exceeds capacity"). -/
structure Packet where
  marker : Bool
  payload_type : Nat
  sequence_number : Nat
  timestamp : Nat
  ssrc : Nat
  payload : List Nat
  max_payload_size : Nat
deriving DecidableEq, Repr

/-- Bytes 1..7 of the serialized RTP header (RFC 3550 layout, exactly the
diagram at the top of `double_perc.cc`): marker/payload-type byte, 16-bit
sequence number, 32-bit timestamp, all big-endian.  `DoublePERC::Encrypt`
copies these seven bytes out of `packet->data() + 1`. -/
def Packet.headerBytes1to7 (p : Packet) : List Nat :=
  [((if p.marker then 128 ||| p.payload_type else p.payload_type)) % 256,
   p.sequence_number / 256 % 256, p.sequence_number % 256,
   p.timestamp / 16777216 % 256, p.timestamp / 65536 % 256,
   p.timestamp / 256 % 256, p.timestamp % 256]

/-- The 11 OHB bytes `MediaCrypto::Encrypt` writes at `inner[1..11]`
(lines 203-216): marker/payload-type byte, sequence number, timestamp and
SSRC, big-endian, each store truncated to a byte. -/
def Packet.ohbBytesLong (p : Packet) : List Nat :=
  [((if p.marker then 128 ||| p.payload_type else p.payload_type)) % 256,
   p.sequence_number / 256 % 256, p.sequence_number % 256,
   p.timestamp / 16777216 % 256, p.timestamp / 65536 % 256,
   p.timestamp / 256 % 256, p.timestamp % 256,
   p.ssrc / 16777216 % 256, p.ssrc / 65536 % 256,
   p.ssrc / 256 % 256, p.ssrc % 256]

/-- The translation-unit constant `ohb_size` of `double_perc.cc` (7: no
SSRC in the OHB). -/
def DoublePERC.ohb_size : Nat := 7

/-- The translation-unit constant `ohb_size` of `media_crypto.cc` (11:
SSRC included). -/
def MediaCrypto.ohb_size : Nat := 11

/-- `DoublePERC::Encrypt`: checks
`ohb_size + payload_size + rtp_auth_tag_len <= MaxPayloadSize`, builds the
inner packet `0x80 :: header bytes 1..7 :: payload`, calls `ProtectRtp`
with input length `1 + ohb_size + payload_size` and — as in the source —
`max_len = size` (even though the scratch buffer holds `size + 1` bytes),
then allocates `out_len - 1` payload bytes, copies `inner + 1`, and sets
the payload size to `out_len - ohb_size`.  `none` models `return false`
with the packet untouched. -/
def DoublePERC.Encrypt (st : SrtpSessionState) (packet : Packet) :
    Option Packet :=
  let size := DoublePERC.ohb_size + packet.payload.length + st.rtp_auth_tag_len_
  if size > packet.max_payload_size then none
  else
    let inner := 128 :: (packet.headerBytes1to7 ++ packet.payload)
    match DoublePERC.ProtectRtp st inner
        (1 + DoublePERC.ohb_size + packet.payload.length) size with
    | none => none
    | some (pbuf, out_len) =>
      if out_len - 1 > packet.max_payload_size then none
      else
        some { packet with
          payload := (pbuf.drop 1).take (out_len - DoublePERC.ohb_size) }

/-- `MediaCrypto::Encrypt`: fails without a session; checks
`ohb_size + payload_size + rtp_auth_tag_len <= MaxPayloadSize`; builds the
inner packet `0x80 :: OHB(11 bytes) :: payload` in a scratch buffer of
`encrypted_payload_size + 1` bytes which is also the `max_len` given to
`ProtectRtp`; on success allocates `out_len - 1` payload bytes, copies
`inner + 1`, and sets the payload size to `out_len - 1`. -/
def MediaCrypto.Encrypt (st : SrtpSessionState) (packet : Packet) :
    Option Packet :=
  match st.session_ with
  | none => none
  | some _ =>
    let encrypted_payload_size :=
      MediaCrypto.ohb_size + packet.payload.length + st.rtp_auth_tag_len_
    if encrypted_payload_size > packet.max_payload_size then none
    else
      let size := encrypted_payload_size + 1
      let inner := 128 :: (packet.ohbBytesLong ++ packet.payload)
      match MediaCrypto.ProtectRtp st inner
          (1 + MediaCrypto.ohb_size + packet.payload.length) size with
      | none => none
      | some (pbuf, out_len) =>
        if out_len - 1 > packet.max_payload_size then none
        else
          some { packet with payload := (pbuf.drop 1).take (out_len - 1) }

/-- `DoublePERC::Decrypt`: rejects when
`*payload_length < ohb_size + rtp_auth_tag_len`; rebuilds the inner packet
`0x80 :: payload`, calls `UnprotectRtp` with input length
`1 + *payload_length`; on success sets
`*payload_length = out_length - ohb_size` and copies from
`inner + ohb_size`.  The result pairs the C++ `bool` with the caller's
buffer (its meaningful `*payload_length` prefix) after the call; every
failure path leaves the buffer as given. -/
def DoublePERC.Decrypt (st : SrtpSessionState) (payload : List Nat) :
    Bool × List Nat :=
  if payload.length < DoublePERC.ohb_size + st.rtp_auth_tag_len_ then
    (false, payload)
  else
    let inner := 128 :: payload
    match DoublePERC.UnprotectRtp st inner (1 + payload.length) with
    | (none, _) => (false, payload)
    | (some (ubuf, out_length), _) =>
      (true, (ubuf.drop DoublePERC.ohb_size).take
        (out_length - DoublePERC.ohb_size))

/-- `MediaCrypto::Decrypt`: fails without a session; rejects when
`*payload_length < ohb_size + rtp_auth_tag_len`; rebuilds the inner packet
`0x80 :: payload`, calls `UnprotectRtp` with input length
`1 + *payload_length`; on success sets
`*payload_length = out_length - ohb_size - 1` and copies from
`inner + ohb_size + 1`. -/
def MediaCrypto.Decrypt (st : SrtpSessionState) (payload : List Nat) :
    Bool × List Nat :=
  match st.session_ with
  | none => (false, payload)
  | some _ =>
    if payload.length < MediaCrypto.ohb_size + st.rtp_auth_tag_len_ then
      (false, payload)
    else
      let inner := 128 :: payload
      match MediaCrypto.UnprotectRtp st inner (1 + payload.length) with
      | (none, _) => (false, payload)
      | (some (ubuf, out_length), _) =>
        (true, (ubuf.drop (MediaCrypto.ohb_size + 1)).take
          (out_length - MediaCrypto.ohb_size - 1))

/-- Decode of the 11-byte long-form OHB (the layout documented by the
diagram in `media_crypto.cc` and written by `MediaCrypto::Encrypt`):
marker bit, 7-bit payload type, 16-bit sequence number, 32-bit timestamp,
32-bit SSRC, all big-endian.  Used to state what a receiver recovers from
the unprotected inner packet. -/
def parseOhbLong (b : List Nat) : Option (Bool × Nat × Nat × Nat × Nat) :=
  match b.take 11 with
  | [b0, b1, b2, b3, b4, b5, b6, b7, b8, b9, b10] =>
    some (Nat.testBit b0 7, b0 % 128,
      readBE2 b1 b2,
      (readBE2 b3 b4) * 65536 + readBE2 b5 b6,
      (readBE2 b7 b8) * 65536 + readBE2 b9 b10)
  | _ => none

/-- Recombining the three bytes written big-endian recovers the value modulo
2^24. -/
theorem readBE3_writeBE3 (v : Nat) :
    ((v / 65536 % 256) * 256 + v / 256 % 256) * 256 + v % 256
      = v % 16777216 := by
  omega

/-- Recombining the two bytes written big-endian recovers the value modulo
2^16. -/
theorem readBE2_writeBE2 (v : Nat) :
    (v / 256 % 256) * 256 + v % 256 = v % 65536 := by
  omega

/-- Or-ing `0x80` onto a 7-bit value is addition. -/
theorem lor_128_eq_add (v : Nat) (h : v < 128) : 128 ||| v = 128 + v := by
  have h2 := lor_two_pow_mul_eq_add 7 1 v (by norm_num; omega)
  norm_num at h2
  exact h2

/-- Bit 7 of `0x80 + v` is set for a 7-bit `v`. -/
theorem testBit7_add_128 (v : Nat) (h : v < 128) :
    Nat.testBit (128 + v) 7 = true := by
  rw [Nat.testBit_to_div_mod]
  have : (128 + v) / 2 ^ 7 = 1 := by norm_num; omega
  rw [this]
  decide

/-- Bit 7 of a 7-bit value is clear. -/
theorem testBit7_of_lt_128 (v : Nat) (h : v < 128) :
    Nat.testBit v 7 = false := by
  exact Nat.testBit_lt_two_pow (by norm_num; omega)

/-- Claim C8 (amended): every fixed-size codec round-trips
(`Parse (Write v) = v`) on its legal domain, *except* that
`VideoTimingExtension::Write` zero-fills the two reserved network-timestamp
slots and `Parse` forces `is_timing_frame := true`, so the VideoTiming
round trip returns the value with those two deltas zeroed and the flag
set. -/
theorem c8_codec_round_trips (ast tsn cvo level : Nat) (toff : Int)
    (va : Bool) (pd : PlayoutDelay) (vt : VideoSendTiming)
    (hast : ast < 16777216)
    (htoff1 : -8388608 ≤ toff) (htoff2 : toff < 8388608)
    (htsn : tsn < 65536) (hcvo : cvo < 256) (hlevel : level ≤ 127)
    (hpdg1 : pd.min_ms % 10 = 0) (hpdg2 : pd.max_ms % 10 = 0)
    (hpd1 : pd.min_ms ≤ pd.max_ms) (hpd2 : pd.max_ms ≤ 16380)
    (hvt1 : vt.encode_start_delta_ms < 65536)
    (hvt2 : vt.encode_finish_delta_ms < 65536)
    (hvt3 : vt.packetization_finish_delta_ms < 65536)
    (hvt4 : vt.pacer_exit_delta_ms < 65536) :
    AbsoluteSendTime.Parse (AbsoluteSendTime.Write ast) = some ast ∧
    TransmissionOffset.Parse (TransmissionOffset.Write toff) = some toff ∧
    TransportSequenceNumber.Parse (TransportSequenceNumber.Write tsn)
      = some tsn ∧
    VideoOrientation.Parse (VideoOrientation.Write cvo) = some cvo ∧
    AudioLevel.Parse (AudioLevel.Write va level) = some (va, level) ∧
    PlayoutDelayLimits.Parse (PlayoutDelayLimits.Write pd) = some pd ∧
    VideoTimingExtension.Parse (VideoTimingExtension.Write vt)
      = some { vt with network_timstamp_delta_ms := 0
                       network2_timstamp_delta_ms := 0
                       is_timing_frame := true } := by
  refine ⟨?_, ?_, ?_, ?_, ?_, ?_, ?_⟩
  · simp [AbsoluteSendTime.Parse, AbsoluteSendTime.Write, writeBE3, readBE3]
    omega
  · simp [TransmissionOffset.Parse, TransmissionOffset.Write, writeBE3,
      readBE3]
    split
    · omega
    · omega
  · simp [TransportSequenceNumber.Parse, TransportSequenceNumber.Write,
      writeBE2, readBE2]
    omega
  · simp [VideoOrientation.Parse, VideoOrientation.Write]
    omega
  · cases va with
    | true =>
      have e1 : AudioLevel.Write true level = [128 + level] := by
        simp [AudioLevel.Write, lor_128_eq_add level (by omega)]
        omega
      rw [e1]
      simp [AudioLevel.Parse, testBit7_add_128 level (by omega)]
      omega
    | false =>
      have e1 : AudioLevel.Write false level = [level] := by
        simp [AudioLevel.Write, Nat.zero_or]
        omega
      rw [e1]
      simp [AudioLevel.Parse, testBit7_of_lt_128 level (by omega)]
      omega
  · rcases pd with ⟨pmin, pmax⟩
    simp only at hpdg1 hpdg2 hpd1 hpd2
    obtain ⟨m, hm⟩ : ∃ m, pmin = 10 * m := ⟨pmin / 10, by omega⟩
    obtain ⟨M, hM⟩ : ∃ M, pmax = 10 * M := ⟨pmax / 10, by omega⟩
    have hlor : (m <<< 12) ||| M = 4096 * m + M := by
      have h2 := lor_two_pow_mul_eq_add 12 m M (by norm_num; omega)
      rw [Nat.shiftLeft_eq, Nat.mul_comm]
      norm_num at h2 ⊢
      exact h2
    have hdm : pmin / PlayoutDelayLimits.kGranularityMs = m := by
      simp only [PlayoutDelayLimits.kGranularityMs, hm]
      omega
    have hdM : pmax / PlayoutDelayLimits.kGranularityMs = M := by
      simp only [PlayoutDelayLimits.kGranularityMs, hM]
      omega
    simp only [PlayoutDelayLimits.Write, hdm, hdM, hlor, writeBE3]
    simp only [PlayoutDelayLimits.Parse, readBE3]
    have e1 : (((4096 * m + M) / 65536 % 256) * 256
        + (4096 * m + M) / 256 % 256) * 256 + (4096 * m + M) % 256
        = 4096 * m + M := by omega
    rw [e1]
    have e2 : (4096 * m + M) / 4096 = m := by omega
    have e3 : (4096 * m + M) % 4096 = M := by omega
    rw [e2, e3, if_neg (by omega)]
    simp only [PlayoutDelayLimits.kGranularityMs, Option.some.injEq,
      PlayoutDelay.mk.injEq]
    refine ⟨by omega, by omega⟩
  · simp [VideoTimingExtension.Parse, VideoTimingExtension.Write, writeBE2,
      readBE2]
    refine ⟨?_, ?_, ?_, ?_⟩ <;> omega

/-- Claim C8 counterexample: the VideoTiming codec does not round-trip on
its legal domain as the claim states — `Write` zero-fills the reserved
network-timestamp slot, so a value with `network_timstamp_delta_ms = 1`
comes back with that delta zeroed. -/
theorem c8_counterexample_video_timing :
    VideoTimingExtension.Parse
        (VideoTimingExtension.Write ⟨5, 6, 7, 8, 1, 0, true⟩)
      ≠ some ⟨5, 6, 7, 8, 1, 0, true⟩ := by
  decide

/-- Claim C8 witness: the amended round trip evaluated at concrete legal
values for every codec. -/
theorem c8_codec_round_trips_witness :
    (300000 : Nat) < 16777216 ∧ (-5 : Int) < 8388608 ∧ (777 : Nat) < 65536 ∧
    (9 : Nat) < 256 ∧ (100 : Nat) ≤ 127 ∧ (20 : Nat) % 10 = 0 ∧
    (16380 : Nat) % 10 = 0 ∧ (20 : Nat) ≤ 16380 ∧
    (AbsoluteSendTime.Parse (AbsoluteSendTime.Write 300000) = some 300000 ∧
     TransmissionOffset.Parse (TransmissionOffset.Write (-5)) = some (-5) ∧
     TransportSequenceNumber.Parse (TransportSequenceNumber.Write 777)
       = some 777 ∧
     VideoOrientation.Parse (VideoOrientation.Write 9) = some 9 ∧
     AudioLevel.Parse (AudioLevel.Write true 100) = some (true, 100) ∧
     PlayoutDelayLimits.Parse (PlayoutDelayLimits.Write ⟨20, 16380⟩)
       = some ⟨20, 16380⟩ ∧
     VideoTimingExtension.Parse (VideoTimingExtension.Write ⟨1, 2, 3, 4, 0, 0, true⟩)
       = some ⟨1, 2, 3, 4, 0, 0, true⟩) :=
  ⟨by decide, by decide, by decide, by decide, by decide, by decide,
   by decide, by decide,
   c8_codec_round_trips 300000 777 9 100 (-5) true ⟨20, 16380⟩
     ⟨1, 2, 3, 4, 0, 0, true⟩ (by decide) (by decide) (by decide) (by decide)
     (by decide) (by decide) (by decide) (by decide) (by decide) (by decide)
     (by decide) (by decide) (by decide) (by decide)⟩

/-- Claim C9: every fixed-size codec rejects a buffer whose length differs
from its required size, and FrameMarking rejects any length outside
`{1, 3}` (out-of-bounds reads are impossible by construction: each parser
is defined by matching the buffer's list structure). -/
theorem c9_length_rejection (data : List Nat) (fm : FrameMarks) :
    (data.length ≠ 3 → AbsoluteSendTime.Parse data = none) ∧
    (data.length ≠ 1 → AudioLevel.Parse data = none) ∧
    (data.length ≠ 3 → TransmissionOffset.Parse data = none) ∧
    (data.length ≠ 2 → TransportSequenceNumber.Parse data = none) ∧
    (data.length ≠ 1 → VideoOrientation.Parse data = none) ∧
    (data.length ≠ 3 → PlayoutDelayLimits.Parse data = none) ∧
    (data.length ≠ 1 → VideoContentTypeExtension.Parse data = none) ∧
    (data.length ≠ 12 → VideoTimingExtension.Parse data = none) ∧
    (data.length ≠ 1 → data.length ≠ 3 → (FrameMarking.Parse data fm).1 = false) := by
  refine ⟨?_, ?_, ?_, ?_, ?_, ?_, ?_, ?_, ?_⟩
  · intro h
    unfold AbsoluteSendTime.Parse
    split
    · simp at h
    · rfl
  · intro h
    unfold AudioLevel.Parse
    split
    · simp at h
    · rfl
  · intro h
    unfold TransmissionOffset.Parse
    split
    · simp at h
    · rfl
  · intro h
    unfold TransportSequenceNumber.Parse
    split
    · simp at h
    · rfl
  · intro h
    unfold VideoOrientation.Parse
    split
    · simp at h
    · rfl
  · intro h
    unfold PlayoutDelayLimits.Parse
    split
    · simp at h
    · rfl
  · intro h
    unfold VideoContentTypeExtension.Parse
    split
    · simp at h
    · rfl
  · intro h
    unfold VideoTimingExtension.Parse
    split
    · simp at h
    · rfl
  · intro h1 h3
    unfold FrameMarking.Parse
    split
    · rfl
    · split
      · simp at h1
      · simp at h3
      · rfl

/-- Claim C9 witness: a 4-byte buffer (wrong length for every codec) is
rejected by each parser. -/
theorem c9_length_rejection_witness :
    ([1, 2, 3, 4] : List Nat).length ≠ 3 ∧
    (AbsoluteSendTime.Parse [1, 2, 3, 4] = none ∧
     AudioLevel.Parse [1, 2, 3, 4] = none ∧
     TransmissionOffset.Parse [1, 2, 3, 4] = none ∧
     TransportSequenceNumber.Parse [1, 2, 3, 4] = none ∧
     VideoOrientation.Parse [1, 2, 3, 4] = none ∧
     PlayoutDelayLimits.Parse [1, 2, 3, 4] = none ∧
     VideoContentTypeExtension.Parse [1, 2, 3, 4] = none ∧
     VideoTimingExtension.Parse [1, 2, 3, 4] = none ∧
     (FrameMarking.Parse [1, 2, 3, 4] {}).1 = false) :=
  ⟨by decide,
   (c9_length_rejection [1, 2, 3, 4] {}).1 (by decide),
   (c9_length_rejection [1, 2, 3, 4] {}).2.1 (by decide),
   (c9_length_rejection [1, 2, 3, 4] {}).2.2.1 (by decide),
   (c9_length_rejection [1, 2, 3, 4] {}).2.2.2.1 (by decide),
   (c9_length_rejection [1, 2, 3, 4] {}).2.2.2.2.1 (by decide),
   (c9_length_rejection [1, 2, 3, 4] {}).2.2.2.2.2.1 (by decide),
   (c9_length_rejection [1, 2, 3, 4] {}).2.2.2.2.2.2.1 (by decide),
   (c9_length_rejection [1, 2, 3, 4] {}).2.2.2.2.2.2.2.1 (by decide),
   (c9_length_rejection [1, 2, 3, 4] {}).2.2.2.2.2.2.2.2 (by decide) (by decide)⟩

/-- Claim C10: on a non-empty buffer whose length is neither 1 nor 3,
`FrameMarking::Parse` returns false but has already overwritten the four
frame flags of the out-parameter from the top four bits of byte 0, so the
failed parse is not a no-op on the output struct. -/
theorem c10_framemarking_partial_write (b0 : Nat) (rest : List Nat)
    (fm : FrameMarks) (h1 : (b0 :: rest).length ≠ 1)
    (h3 : (b0 :: rest).length ≠ 3) :
    FrameMarking.Parse (b0 :: rest) fm =
      (false, { fm with
        start_of_frame := Nat.testBit b0 7
        end_of_frame := Nat.testBit b0 6
        independent := Nat.testBit b0 5
        discardable := Nat.testBit b0 4 }) := by
  rcases rest with _ | ⟨b1, rest2⟩
  · simp at h1
  · rcases rest2 with _ | ⟨b2, rest3⟩
    · rfl
    · rcases rest3 with _ | ⟨b3, rest4⟩
      · simp at h3
      · rfl

/-- Claim C10 witness: a 2-byte buffer with byte 0 = 0xF0 fails to parse
yet sets all four flags of an initially default-false `FrameMarks`. -/
theorem c10_framemarking_partial_write_witness :
    ([240, 9] : List Nat).length ≠ 1 ∧ ([240, 9] : List Nat).length ≠ 3 ∧
    FrameMarking.Parse [240, 9] {} =
      (false, { start_of_frame := true
                end_of_frame := true
                independent := true
                discardable := true }) :=
  ⟨by decide, by decide,
   by
    have h := c10_framemarking_partial_write 240 [9] {} (by decide) (by decide)
    simpa using h⟩

/-- A keyed session state with the AES-CM-128/HMAC-SHA1-80 tag length (10)
and the ideal lossless engine, used by concrete witnesses. -/
def stTag10 : SrtpSessionState :=
  { session_ := some (idealCtx 10), rtp_auth_tag_len_ := 10,
    rtcp_auth_tag_len_ := 10 }

/-- Claim C5: the session state machine is one-way — `SetKey` on an
already-keyed session (either class) returns false and leaves the state
(session handle and both recorded auth-tag lengths) unchanged, so
subsequent Encrypt/Decrypt calls behave exactly as before. -/
theorem c5_setkey_one_way (st : SrtpSessionState) (ctx : SrtpCtx)
    (create : Option SrtpCtx) (cs : Nat) (key : Option (List Nat))
    (payload : List Nat) (pkt : Packet) (h : st.session_ = some ctx) :
    MediaCrypto.SetKey st create cs key = (false, st) ∧
    DoublePERC.SetKey st create cs key = (false, st) ∧
    MediaCrypto.Encrypt (MediaCrypto.SetKey st create cs key).2 pkt
      = MediaCrypto.Encrypt st pkt ∧
    MediaCrypto.Decrypt (MediaCrypto.SetKey st create cs key).2 payload
      = MediaCrypto.Decrypt st payload ∧
    DoublePERC.Encrypt (DoublePERC.SetKey st create cs key).2 pkt
      = DoublePERC.Encrypt st pkt ∧
    DoublePERC.Decrypt (DoublePERC.SetKey st create cs key).2 payload
      = DoublePERC.Decrypt st payload := by
  have e1 : MediaCrypto.SetKey st create cs key = (false, st) := by
    unfold MediaCrypto.SetKey
    rw [h]
  have e2 : DoublePERC.SetKey st create cs key = (false, st) := by
    unfold DoublePERC.SetKey
    rw [h]
  exact ⟨e1, e2, by rw [e1], by rw [e1], by rw [e2], by rw [e2]⟩

/-- Claim C5 witness: a second `SetKey` with a fresh engine and valid key
material on the keyed `stTag10` fails and keeps the state. -/
theorem c5_setkey_one_way_witness :
    stTag10.session_ = some (idealCtx 10) ∧
    MediaCrypto.SetKey stTag10 (some (idealCtx 10)) SRTP_AES128_CM_SHA1_80
        (some (List.replicate 30 7)) = (false, stTag10) ∧
    DoublePERC.SetKey stTag10 (some (idealCtx 10)) SRTP_AES128_CM_SHA1_80
        (some (List.replicate 30 7)) = (false, stTag10) :=
  ⟨rfl,
   (c5_setkey_one_way stTag10 (idealCtx 10) (some (idealCtx 10))
     SRTP_AES128_CM_SHA1_80 (some (List.replicate 30 7)) []
     ⟨false, 0, 0, 0, 0, [], 0⟩ rfl).1,
   (c5_setkey_one_way stTag10 (idealCtx 10) (some (idealCtx 10))
     SRTP_AES128_CM_SHA1_80 (some (List.replicate 30 7)) []
     ⟨false, 0, 0, 0, 0, [], 0⟩ rfl).2.1⟩

/-- Claim C6 (amended): on a replay-detected status,
`MediaCrypto::UnprotectRtp` logs the distinct "Replay failed" message but
*returns true* (it falls through to success), while
`DoublePERC::UnprotectRtp` returns false through the same undistinguished
error branch it uses for every other non-ok status. -/
theorem c6_replay_handling (st : SrtpSessionState) (ctx : SrtpCtx)
    (p q : List Nat) (n m : Nat) (ubuf ubuf2 : List Nat) (olen olen2 : Nat)
    (hs : st.session_ = some ctx)
    (hr : ctx.unprotect p n = (SrtpStatus.replay_fail, ubuf, olen))
    (ho : ctx.unprotect q m = (SrtpStatus.other, ubuf2, olen2)) :
    MediaCrypto.UnprotectRtp st p n
      = (some (ubuf, olen), UnprotectLog.replayLog) ∧
    DoublePERC.UnprotectRtp st p n = (none, UnprotectLog.errorLog) ∧
    MediaCrypto.UnprotectRtp st q m = (none, UnprotectLog.errorLog) ∧
    DoublePERC.UnprotectRtp st q m = (none, UnprotectLog.errorLog) := by
  refine ⟨?_, ?_, ?_, ?_⟩
  · simp only [MediaCrypto.UnprotectRtp, hs, hr]
  · simp only [DoublePERC.UnprotectRtp, hs, hr]
  · simp only [MediaCrypto.UnprotectRtp, hs, ho]
  · simp only [DoublePERC.UnprotectRtp, hs, ho]

/-- An engine whose unprotect always reports a detected replay. -/
def replayCtx : SrtpCtx where
  protect := fun b n => (SrtpStatus.ok, b, n)
  unprotect := fun b _ => (SrtpStatus.replay_fail, b, 0)

/-- An engine whose unprotect always reports a generic error. -/
def otherErrCtx : SrtpCtx where
  protect := fun b n => (SrtpStatus.ok, b, n)
  unprotect := fun b _ => (SrtpStatus.other, b, 0)

/-- Claim C6 counterexample: with a keyed session whose engine reports a
replay, `MediaCrypto::UnprotectRtp` returns *success*, contradicting the
claim that a replay is reported as a failure; and `DoublePERC` reports it
through the same error branch as a generic failure, so it is not
distinguished there either. -/
theorem c6_counterexample :
    (MediaCrypto.UnprotectRtp
      { session_ := some replayCtx, rtp_auth_tag_len_ := 10,
        rtcp_auth_tag_len_ := 10 } [128, 1, 2] 3).1.isSome = true ∧
    DoublePERC.UnprotectRtp
      { session_ := some replayCtx, rtp_auth_tag_len_ := 10,
        rtcp_auth_tag_len_ := 10 } [128, 1, 2] 3
      = (none, UnprotectLog.errorLog) ∧
    DoublePERC.UnprotectRtp
      { session_ := some otherErrCtx, rtp_auth_tag_len_ := 10,
        rtcp_auth_tag_len_ := 10 } [128, 1, 2] 3
      = (none, UnprotectLog.errorLog) :=
  ⟨rfl, rfl, rfl⟩

/-- An engine reporting a replay on 3-byte inputs and a generic error on
everything else, for the C6 witness. -/
def mixedCtx : SrtpCtx where
  protect := fun b n => (SrtpStatus.ok, b, n)
  unprotect := fun b n =>
    if n = 3 then (SrtpStatus.replay_fail, b, 0) else (SrtpStatus.other, b, 0)

/-- Claim C6 witness: the amended behavior evaluated on a concrete keyed
engine that reports a replay for one input and a generic error for
another. -/
theorem c6_replay_handling_witness :
    MediaCrypto.UnprotectRtp
      { session_ := some mixedCtx, rtp_auth_tag_len_ := 10,
        rtcp_auth_tag_len_ := 10 } [128, 1, 2] 3
      = (some ([128, 1, 2], 0), UnprotectLog.replayLog) ∧
    DoublePERC.UnprotectRtp
      { session_ := some mixedCtx, rtp_auth_tag_len_ := 10,
        rtcp_auth_tag_len_ := 10 } [128, 1, 2] 3
      = (none, UnprotectLog.errorLog) ∧
    MediaCrypto.UnprotectRtp
      { session_ := some mixedCtx, rtp_auth_tag_len_ := 10,
        rtcp_auth_tag_len_ := 10 } [9] 7
      = (none, UnprotectLog.errorLog) ∧
    DoublePERC.UnprotectRtp
      { session_ := some mixedCtx, rtp_auth_tag_len_ := 10,
        rtcp_auth_tag_len_ := 10 } [9] 7
      = (none, UnprotectLog.errorLog) :=
  c6_replay_handling
    { session_ := some mixedCtx, rtp_auth_tag_len_ := 10,
      rtcp_auth_tag_len_ := 10 } mixedCtx [128, 1, 2] [9] 3 7 [128, 1, 2]
    [9] 0 0 rfl rfl rfl

/-- Claim C7: both `Decrypt`s reject a payload shorter than
`ohb_size + rtp_auth_tag_len`, and on *every* failure path (short payload,
missing session, engine rejection) the caller's buffer and length come
back exactly as given. -/
theorem c7_decrypt_reject_no_mutation (st : SrtpSessionState)
    (payload : List Nat) :
    (payload.length < DoublePERC.ohb_size + st.rtp_auth_tag_len_ →
      DoublePERC.Decrypt st payload = (false, payload)) ∧
    (payload.length < MediaCrypto.ohb_size + st.rtp_auth_tag_len_ →
      MediaCrypto.Decrypt st payload = (false, payload)) ∧
    (∀ res, DoublePERC.Decrypt st payload = (false, res) → res = payload) ∧
    (∀ res, MediaCrypto.Decrypt st payload = (false, res) → res = payload) := by
  refine ⟨?_, ?_, ?_, ?_⟩
  · intro h
    unfold DoublePERC.Decrypt
    rw [if_pos h]
  · intro h
    unfold MediaCrypto.Decrypt
    cases hs : st.session_ with
    | none => rfl
    | some ctx => rw [if_pos h]
  · intro res hres
    unfold DoublePERC.Decrypt at hres
    split at hres
    · injection hres with h1 h2
      exact h2.symm
    · dsimp only at hres
      split at hres
      · injection hres with h1 h2
        exact h2.symm
      · simp at hres
  · intro res hres
    unfold MediaCrypto.Decrypt at hres
    split at hres
    · injection hres with h1 h2
      exact h2.symm
    · split at hres
      · injection hres with h1 h2
        exact h2.symm
      · dsimp only at hres
        split at hres
        · injection hres with h1 h2
          exact h2.symm
        · simp at hres

/-- Claim C7 witness: a 3-byte payload is below the 17-byte minimum of the
keyed `stTag10` session and is rejected unmodified by both engines. -/
theorem c7_decrypt_reject_no_mutation_witness :
    ([1, 2, 3] : List Nat).length < DoublePERC.ohb_size + stTag10.rtp_auth_tag_len_ ∧
    ([1, 2, 3] : List Nat).length < MediaCrypto.ohb_size + stTag10.rtp_auth_tag_len_ ∧
    DoublePERC.Decrypt stTag10 [1, 2, 3] = (false, [1, 2, 3]) ∧
    MediaCrypto.Decrypt stTag10 [1, 2, 3] = (false, [1, 2, 3]) :=
  ⟨by decide, by decide,
   (c7_decrypt_reject_no_mutation stTag10 [1, 2, 3]).1 (by decide),
   (c7_decrypt_reject_no_mutation stTag10 [1, 2, 3]).2.1 (by decide)⟩

/-- Claim C2 (amended): on a successful `Decrypt` the *short* variant sets
`*payload_length = out_length - ohb_size` and copies from offset
`ohb_size` — one byte too early, so the final OHB byte is kept as the
first "payload" byte — while the *long* variant sets
`*payload_length = out_length - ohb_size - 1` and copies from offset
`ohb_size + 1`, stripping the OHB exactly. -/
theorem c2_ohb_strip (st : SrtpSessionState) (ctx : SrtpCtx) :
    (∀ payload ohb7 plain, st.session_ = some ctx →
      DoublePERC.ohb_size + st.rtp_auth_tag_len_ ≤ payload.length →
      ohb7.length = 7 →
      ctx.unprotect (128 :: payload) (1 + payload.length)
        = (SrtpStatus.ok, 128 :: (ohb7 ++ plain), 8 + plain.length) →
      DoublePERC.Decrypt st payload = (true, ohb7.drop 6 ++ plain)) ∧
    (∀ payload ohb11 plain, st.session_ = some ctx →
      MediaCrypto.ohb_size + st.rtp_auth_tag_len_ ≤ payload.length →
      ohb11.length = 11 →
      ctx.unprotect (128 :: payload) (1 + payload.length)
        = (SrtpStatus.ok, 128 :: (ohb11 ++ plain), 12 + plain.length) →
      MediaCrypto.Decrypt st payload = (true, plain)) := by
  constructor
  · intro payload ohb7 plain hs hlen h7 hu
    unfold DoublePERC.Decrypt
    rw [if_neg (by simp [DoublePERC.ohb_size] at hlen ⊢; omega)]
    dsimp only
    simp only [DoublePERC.UnprotectRtp, hs, hu]
    have hdrop : List.drop DoublePERC.ohb_size (128 :: (ohb7 ++ plain))
        = ohb7.drop 6 ++ plain := by
      show List.drop 7 (128 :: (ohb7 ++ plain)) = ohb7.drop 6 ++ plain
      have e : List.drop 7 (128 :: (ohb7 ++ plain))
          = List.drop 6 (ohb7 ++ plain) := rfl
      rw [e, List.drop_append_eq_append_drop, h7]
      simp
    rw [hdrop]
    have hlen2 : (ohb7.drop 6 ++ plain).length = 1 + plain.length := by
      simp [h7]
    have htake : 8 + plain.length - DoublePERC.ohb_size = 1 + plain.length := by
      simp only [DoublePERC.ohb_size]
      omega
    rw [htake, ← hlen2, List.take_length]
  · intro payload ohb11 plain hs hlen h11 hu
    unfold MediaCrypto.Decrypt
    rw [hs]
    rw [if_neg (by simp [MediaCrypto.ohb_size] at hlen ⊢; omega)]
    dsimp only
    simp only [MediaCrypto.UnprotectRtp, hs, hu]
    have hdrop : List.drop (MediaCrypto.ohb_size + 1) (128 :: (ohb11 ++ plain))
        = plain := by
      show List.drop 12 (128 :: (ohb11 ++ plain)) = plain
      have e : List.drop 12 (128 :: (ohb11 ++ plain))
          = List.drop 11 (ohb11 ++ plain) := rfl
      rw [e, List.drop_left' h11]
    rw [hdrop]
    have htake : 12 + plain.length - MediaCrypto.ohb_size - 1 = plain.length := by
      simp only [MediaCrypto.ohb_size]
      omega
    rw [htake, List.take_length]

/-- An engine whose unprotect yields a fixed well-formed short-OHB inner
packet: version byte, 7 OHB bytes 101..107, one plaintext byte 55,
`out_length = 9`. -/
def stripCtx7 : SrtpCtx where
  protect := fun b n => (SrtpStatus.ok, b, n)
  unprotect := fun _ _ =>
    (SrtpStatus.ok, 128 :: ([101, 102, 103, 104, 105, 106, 107] ++ [55]), 9)

/-- An engine whose unprotect yields a fixed well-formed long-OHB inner
packet: version byte, 11 OHB bytes 1..11, one plaintext byte 55,
`out_length = 13`. -/
def stripCtx11 : SrtpCtx where
  protect := fun b n => (SrtpStatus.ok, b, n)
  unprotect := fun _ _ =>
    (SrtpStatus.ok, 128 :: ([1, 2, 3, 4, 5, 6, 7, 8, 9, 10, 11] ++ [55]), 13)

/-- Claim C2 counterexample: the claim has the two variants swapped.  With
a successful unprotect of a 1-byte-plaintext inner packet the short
variant returns 2 bytes (the last OHB byte and the plaintext) — not the
claimed `out_length - ohb_len - 1 = 1` — and the long variant returns 1
byte copied from offset `ohb_len + 1`, not the claimed 2 bytes from
offset `ohb_len`. -/
theorem c2_counterexample :
    DoublePERC.Decrypt
      { session_ := some stripCtx7, rtp_auth_tag_len_ := 10,
        rtcp_auth_tag_len_ := 10 } (List.replicate 17 0) = (true, [107, 55]) ∧
    (DoublePERC.Decrypt
      { session_ := some stripCtx7, rtp_auth_tag_len_ := 10,
        rtcp_auth_tag_len_ := 10 } (List.replicate 17 0)).2.length
      ≠ 9 - DoublePERC.ohb_size - 1 ∧
    MediaCrypto.Decrypt
      { session_ := some stripCtx11, rtp_auth_tag_len_ := 10,
        rtcp_auth_tag_len_ := 10 } (List.replicate 21 0) = (true, [55]) ∧
    MediaCrypto.Decrypt
      { session_ := some stripCtx11, rtp_auth_tag_len_ := 10,
        rtcp_auth_tag_len_ := 10 } (List.replicate 21 0) ≠ (true, [11, 55]) := by
  refine ⟨by decide, by decide, by decide, by decide⟩

/-- Claim C2 witness: the amended strip arithmetic evaluated on the
concrete engines. -/
theorem c2_ohb_strip_witness :
    DoublePERC.Decrypt
      { session_ := some stripCtx7, rtp_auth_tag_len_ := 10,
        rtcp_auth_tag_len_ := 10 } (List.replicate 17 0)
      = (true, ([101, 102, 103, 104, 105, 106, 107] : List Nat).drop 6 ++ [55]) ∧
    MediaCrypto.Decrypt
      { session_ := some stripCtx11, rtp_auth_tag_len_ := 10,
        rtcp_auth_tag_len_ := 10 } (List.replicate 21 0) = (true, [55]) :=
  ⟨(c2_ohb_strip
      { session_ := some stripCtx7, rtp_auth_tag_len_ := 10,
        rtcp_auth_tag_len_ := 10 } stripCtx7).1 (List.replicate 17 0)
      [101, 102, 103, 104, 105, 106, 107] [55] rfl (by decide) (by decide) rfl,
   (c2_ohb_strip
      { session_ := some stripCtx11, rtp_auth_tag_len_ := 10,
        rtcp_auth_tag_len_ := 10 } stripCtx11).2 (List.replicate 21 0)
      [1, 2, 3, 4, 5, 6, 7, 8, 9, 10, 11] [55] rfl (by decide) (by decide) rfl⟩

/-- `DoublePERC::Encrypt` can never succeed: it passes `size` (the buffer
length *without* the synthetic version byte) as `max_len` to `ProtectRtp`,
whose capacity check needs `in_len + rtp_auth_tag_len = size + 1`, so the
"buffer too small" branch always fires (and without a session the call
fails even earlier). -/
theorem doublePERC_encrypt_none (st : SrtpSessionState) (packet : Packet) :
    DoublePERC.Encrypt st packet = none := by
  unfold DoublePERC.Encrypt
  dsimp only
  split
  · rfl
  · have hp : DoublePERC.ProtectRtp st
        (128 :: (packet.headerBytes1to7 ++ packet.payload))
        (1 + DoublePERC.ohb_size + packet.payload.length)
        (DoublePERC.ohb_size + packet.payload.length + st.rtp_auth_tag_len_)
        = none := by
      unfold DoublePERC.ProtectRtp
      split
      · rfl
      · rw [if_pos (by simp only [DoublePERC.ohb_size]; omega)]
    rw [hp]

/-- A packet matching the spec's concrete scenario: pt 96, seq 1000,
ts 48000, 160 zero payload bytes, ample capacity. -/
def pkt160 : Packet :=
  { marker := false, payload_type := 96, sequence_number := 1000,
    timestamp := 48000, ssrc := 3735928559, payload := List.replicate 160 0,
    max_payload_size := 1000 }

/-- Claim C3 (code bug): evaluated at the concrete scenario input on a
keyed session with a non-failing engine, `DoublePERC::Encrypt` returns
false — its success path (which sets the payload size to
`out_len - ohb_size` after allocating and copying `out_len - 1` bytes,
contradicting both itself and the claimed `out_len - 1`) is unreachable,
because the `ProtectRtp` call is passed `max_len = size` while the check
requires `size + 1`. -/
theorem c3_doubleperc_encrypt_at_scenario :
    DoublePERC.Encrypt stTag10 pkt160 = none :=
  doublePERC_encrypt_none stTag10 pkt160

/-- The protected buffer produced by a lossless engine inside
`MediaCrypto::Encrypt`, together with the packet `Encrypt` returns: the
outer payload is the protected scratch buffer minus its first byte. -/
theorem mediaCrypto_encrypt_spec (ctx : SrtpCtx) (tag rtcp : Nat)
    (pkt : Packet) (hL : ctx.Lossless tag)
    (hcap : MediaCrypto.ohb_size + pkt.payload.length + tag
      ≤ pkt.max_payload_size) :
    ∃ pbuf : List Nat,
      ctx.protect (128 :: (pkt.ohbBytesLong ++ pkt.payload))
          (1 + MediaCrypto.ohb_size + pkt.payload.length)
        = (SrtpStatus.ok, pbuf,
           1 + MediaCrypto.ohb_size + pkt.payload.length + tag) ∧
      pbuf.length = 1 + MediaCrypto.ohb_size + pkt.payload.length + tag ∧
      MediaCrypto.Encrypt
          { session_ := some ctx, rtp_auth_tag_len_ := tag,
            rtcp_auth_tag_len_ := rtcp } pkt
        = some { pkt with payload := pbuf.drop 1 } := by
  have hinlen : (128 :: (pkt.ohbBytesLong ++ pkt.payload)).length
      = 1 + MediaCrypto.ohb_size + pkt.payload.length := by
    simp [Packet.ohbBytesLong, MediaCrypto.ohb_size]
    omega
  rcases hp : ctx.protect (128 :: (pkt.ohbBytesLong ++ pkt.payload))
      (1 + MediaCrypto.ohb_size + pkt.payload.length) with ⟨s, pbuf, olen⟩
  have hok : s = SrtpStatus.ok := by
    have h := hL.1 (128 :: (pkt.ohbBytesLong ++ pkt.payload))
      (1 + MediaCrypto.ohb_size + pkt.payload.length) hinlen
    rw [hp] at h
    exact h
  have holen : olen = 1 + MediaCrypto.ohb_size + pkt.payload.length + tag := by
    have h := hL.2.1 (128 :: (pkt.ohbBytesLong ++ pkt.payload))
      (1 + MediaCrypto.ohb_size + pkt.payload.length) hinlen
    rw [hp] at h
    exact h
  have hplen : pbuf.length
      = 1 + MediaCrypto.ohb_size + pkt.payload.length + tag := by
    have h := hL.2.2.1 (128 :: (pkt.ohbBytesLong ++ pkt.payload))
      (1 + MediaCrypto.ohb_size + pkt.payload.length) hinlen
    rw [hp] at h
    exact h
  subst hok holen
  refine ⟨pbuf, rfl, hplen, ?_⟩
  unfold MediaCrypto.Encrypt
  dsimp only
  rw [if_neg (by omega)]
  have hprot : MediaCrypto.ProtectRtp
      { session_ := some ctx, rtp_auth_tag_len_ := tag,
        rtcp_auth_tag_len_ := rtcp }
      (128 :: (pkt.ohbBytesLong ++ pkt.payload))
      (1 + MediaCrypto.ohb_size + pkt.payload.length)
      (MediaCrypto.ohb_size + pkt.payload.length + tag + 1)
      = some (pbuf, 1 + MediaCrypto.ohb_size + pkt.payload.length + tag) := by
    unfold MediaCrypto.ProtectRtp
    dsimp only
    rw [if_neg (by omega), hp]
  rw [hprot]
  dsimp only
  rw [if_neg (by omega)]
  have htake : List.take (1 + MediaCrypto.ohb_size + pkt.payload.length + tag - 1)
      (pbuf.drop 1) = pbuf.drop 1 := by
    apply List.take_of_length_le
    simp [hplen]
  rw [htake]

/-- Claim C4 (amended): when `ohb_size + payload_size + rtp_auth_tag_len`
exceeds `MaxPayloadSize`, both `Encrypt`s fail before touching the packet;
at the exact boundary `MediaCrypto::Encrypt` succeeds (keyed, non-failing
engine) with the outer payload filling the whole capacity, but
`DoublePERC::Encrypt` fails there too — indeed at every input — because it
hands `ProtectRtp` a capacity one byte short of what its check requires. -/
theorem c4_overhead_accounting :
    (∀ (st : SrtpSessionState) (pkt : Packet),
      MediaCrypto.ohb_size + pkt.payload.length + st.rtp_auth_tag_len_
        > pkt.max_payload_size →
      MediaCrypto.Encrypt st pkt = none) ∧
    (∀ (st : SrtpSessionState) (pkt : Packet),
      DoublePERC.Encrypt st pkt = none) ∧
    (∀ (ctx : SrtpCtx) (tag rtcp : Nat) (pkt : Packet), ctx.Lossless tag →
      MediaCrypto.ohb_size + pkt.payload.length + tag = pkt.max_payload_size →
      ∃ q, MediaCrypto.Encrypt
          { session_ := some ctx, rtp_auth_tag_len_ := tag,
            rtcp_auth_tag_len_ := rtcp } pkt = some q ∧
        q.payload.length = pkt.max_payload_size) := by
  refine ⟨?_, ?_, ?_⟩
  · intro st pkt h
    unfold MediaCrypto.Encrypt
    split
    · rfl
    · dsimp only
      rw [if_pos h]
  · intro st pkt
    exact doublePERC_encrypt_none st pkt
  · intro ctx tag rtcp pkt hL hcap
    obtain ⟨pbuf, hp, hplen, henc⟩ :=
      mediaCrypto_encrypt_spec ctx tag rtcp pkt hL (le_of_eq hcap)
    refine ⟨_, henc, ?_⟩
    simp [hplen]
    omega

/-- An at-the-boundary packet for the C4 witness and counterexample:
3 payload bytes with `max_payload_size = ohb + 3 + tag` for the respective
engine. -/
def pktBoundaryLong : Packet :=
  { marker := true, payload_type := 96, sequence_number := 1000,
    timestamp := 48000, ssrc := 77, payload := [1, 2, 3],
    max_payload_size := 24 }

/-- A packet exactly at the short engine's boundary:
`7 + 3 + 10 = 20 = max_payload_size`. -/
def pktBoundaryShort : Packet :=
  { marker := false, payload_type := 96, sequence_number := 1000,
    timestamp := 48000, ssrc := 77, payload := [1, 2, 3],
    max_payload_size := 20 }

/-- Claim C4 counterexample: with the keyed lossless session `stTag10`,
`DoublePERC::Encrypt` fails at the exact boundary
`ohb_size + payload_size + rtp_auth_tag_len = MaxPayloadSize`, where the
claim requires success. -/
theorem c4_counterexample :
    DoublePERC.ohb_size + pktBoundaryShort.payload.length
        + stTag10.rtp_auth_tag_len_ = pktBoundaryShort.max_payload_size ∧
    DoublePERC.Encrypt stTag10 pktBoundaryShort = none :=
  ⟨by decide, doublePERC_encrypt_none stTag10 pktBoundaryShort⟩

/-- Claim C4 witness: the amended statement evaluated at concrete inputs —
an over-capacity `MediaCrypto` encrypt fails, every `DoublePERC` encrypt
fails, and a boundary `MediaCrypto` encrypt succeeds filling the
capacity. -/
theorem c4_overhead_accounting_witness :
    MediaCrypto.ohb_size + (List.replicate 20 0).length
        + stTag10.rtp_auth_tag_len_ > 24 ∧
    MediaCrypto.Encrypt stTag10
      { marker := false, payload_type := 96, sequence_number := 1000,
        timestamp := 48000, ssrc := 77, payload := List.replicate 20 0,
        max_payload_size := 24 } = none ∧
    DoublePERC.Encrypt stTag10 pktBoundaryShort = none ∧
    (idealCtx 10).Lossless 10 ∧
    MediaCrypto.ohb_size + pktBoundaryLong.payload.length + 10
      = pktBoundaryLong.max_payload_size ∧
    (∃ q, MediaCrypto.Encrypt
        { session_ := some (idealCtx 10), rtp_auth_tag_len_ := 10,
          rtcp_auth_tag_len_ := 10 } pktBoundaryLong = some q ∧
      q.payload.length = pktBoundaryLong.max_payload_size) :=
  ⟨by decide,
   c4_overhead_accounting.1 stTag10
     { marker := false, payload_type := 96, sequence_number := 1000,
       timestamp := 48000, ssrc := 77, payload := List.replicate 20 0,
       max_payload_size := 24 } (by decide),
   c4_overhead_accounting.2.1 stTag10 pktBoundaryShort,
   idealCtx_lossless 10,
   by decide,
   c4_overhead_accounting.2.2 (idealCtx 10) 10 10 pktBoundaryLong
     (idealCtx_lossless 10) (by decide)⟩

/-- Decoding the long OHB written by `MediaCrypto::Encrypt` (followed by
any payload bytes) recovers the original header fields. -/
theorem parseOhbLong_ohbBytes (pkt : Packet) (rest : List Nat)
    (hpt : pkt.payload_type < 128) (hseq : pkt.sequence_number < 65536)
    (hts : pkt.timestamp < 4294967296) (hssrc : pkt.ssrc < 4294967296) :
    parseOhbLong (pkt.ohbBytesLong ++ rest)
      = some (pkt.marker, pkt.payload_type, pkt.sequence_number,
          pkt.timestamp, pkt.ssrc) := by
  have htake : (pkt.ohbBytesLong ++ rest).take 11 = pkt.ohbBytesLong :=
    List.take_left' (by simp [Packet.ohbBytesLong])
  unfold parseOhbLong
  rw [htake]
  unfold Packet.ohbBytesLong
  cases hm : pkt.marker with
  | true =>
    simp only [Option.some.injEq, Prod.mk.injEq, readBE2, if_pos]
    rw [lor_128_eq_add _ hpt]
    have hb : (128 + pkt.payload_type) % 256 = 128 + pkt.payload_type := by
      omega
    rw [hb]
    refine ⟨testBit7_add_128 _ hpt, by omega, by omega, by omega, by omega⟩
  | false =>
    simp only [Option.some.injEq, Prod.mk.injEq, readBE2,
      if_neg (show ¬(false = true) from by decide)]
    have hb : pkt.payload_type % 256 = pkt.payload_type := by omega
    rw [hb]
    refine ⟨testBit7_of_lt_128 _ hpt, by omega, by omega, by omega, by omega⟩

/-- Claim C1 (amended): for the long-form `MediaCrypto` engine keyed with a
lossless (inverse-protect) engine, `Decrypt (Encrypt packet)` returns
exactly the original payload for every payload size from 0 up to
`max_capacity - ohb_len - auth_tag_len`, and the OHB carried in the
receiver's unprotected scratch buffer decodes to the original marker,
payload type, sequence number, timestamp and SSRC.  (The short-form
`DoublePERC` engine does not satisfy the round trip: see the
counterexample.) -/
theorem c1_encrypt_decrypt_identity (ctx : SrtpCtx) (tag rtcp : Nat)
    (pkt : Packet) (hL : ctx.Lossless tag)
    (hpt : pkt.payload_type < 128) (hseq : pkt.sequence_number < 65536)
    (hts : pkt.timestamp < 4294967296) (hssrc : pkt.ssrc < 4294967296)
    (hsub : pkt.payload.length
      ≤ pkt.max_payload_size - MediaCrypto.ohb_size - tag)
    (hmin : MediaCrypto.ohb_size + tag ≤ pkt.max_payload_size) :
    ∃ q, MediaCrypto.Encrypt
        { session_ := some ctx, rtp_auth_tag_len_ := tag,
          rtcp_auth_tag_len_ := rtcp } pkt = some q ∧
      MediaCrypto.Decrypt
        { session_ := some ctx, rtp_auth_tag_len_ := tag,
          rtcp_auth_tag_len_ := rtcp } q.payload = (true, pkt.payload) ∧
      parseOhbLong
        (((ctx.unprotect (128 :: q.payload) (1 + q.payload.length)).2.1).drop 1)
        = some (pkt.marker, pkt.payload_type, pkt.sequence_number,
            pkt.timestamp, pkt.ssrc) := by
  have hcap : MediaCrypto.ohb_size + pkt.payload.length + tag
      ≤ pkt.max_payload_size := by omega
  obtain ⟨pbuf, hp, hplen, henc⟩ :=
    mediaCrypto_encrypt_spec ctx tag rtcp pkt hL hcap
  have hinlen : (128 :: (pkt.ohbBytesLong ++ pkt.payload)).length
      = 1 + MediaCrypto.ohb_size + pkt.payload.length := by
    simp [Packet.ohbBytesLong, MediaCrypto.ohb_size]
    omega
  have hh := hL.2.2.2.1 (128 :: (pkt.ohbBytesLong ++ pkt.payload))
    (1 + MediaCrypto.ohb_size + pkt.payload.length) hinlen (by omega)
  rw [hp] at hh
  have hpbuf : 128 :: pbuf.drop 1 = pbuf := by
    cases pbuf with
    | nil => simp at hh
    | cons a t =>
      simp at hh
      rw [hh]
      simp
  have hunp := hL.2.2.2.2 (128 :: (pkt.ohbBytesLong ++ pkt.payload))
    (1 + MediaCrypto.ohb_size + pkt.payload.length) hinlen
  rw [hp] at hunp
  dsimp only at hunp
  have hdlen : (pbuf.drop 1).length
      = MediaCrypto.ohb_size + pkt.payload.length + tag := by
    rw [List.length_drop, hplen]
    omega
  have harg : 1 + (pbuf.drop 1).length
      = 1 + MediaCrypto.ohb_size + pkt.payload.length + tag := by
    omega
  have hdec : MediaCrypto.Decrypt
      { session_ := some ctx, rtp_auth_tag_len_ := tag,
        rtcp_auth_tag_len_ := rtcp } (pbuf.drop 1) = (true, pkt.payload) := by
    unfold MediaCrypto.Decrypt
    dsimp only
    rw [if_neg (by omega)]
    rw [hpbuf, harg]
    have hcall : MediaCrypto.UnprotectRtp
        { session_ := some ctx, rtp_auth_tag_len_ := tag,
          rtcp_auth_tag_len_ := rtcp } pbuf
        (1 + MediaCrypto.ohb_size + pkt.payload.length + tag)
        = (some (128 :: (pkt.ohbBytesLong ++ pkt.payload),
            1 + MediaCrypto.ohb_size + pkt.payload.length),
           UnprotectLog.silent) := by
      unfold MediaCrypto.UnprotectRtp
      dsimp only
      rw [hunp]
    rw [hcall]
    dsimp only
    have hdrop : List.drop (MediaCrypto.ohb_size + 1)
        (128 :: (pkt.ohbBytesLong ++ pkt.payload)) = pkt.payload := by
      show List.drop 12 (128 :: (pkt.ohbBytesLong ++ pkt.payload))
        = pkt.payload
      have e : List.drop 12 (128 :: (pkt.ohbBytesLong ++ pkt.payload))
          = List.drop 11 (pkt.ohbBytesLong ++ pkt.payload) := rfl
      rw [e, List.drop_left' (by simp [Packet.ohbBytesLong])]
    rw [hdrop]
    have htake : 1 + MediaCrypto.ohb_size + pkt.payload.length
        - MediaCrypto.ohb_size - 1 = pkt.payload.length := by omega
    rw [htake, List.take_length]
  refine ⟨_, henc, hdec, ?_⟩
  have e1 : ({ pkt with payload := pbuf.drop 1 } : Packet).payload
      = pbuf.drop 1 := rfl
  rw [e1, hpbuf, harg, hunp]
  dsimp only
  exact parseOhbLong_ohbBytes pkt pkt.payload hpt hseq hts hssrc

/-- A small in-capacity packet for the C1 counterexample. -/
def pktC1 : Packet :=
  { marker := false, payload_type := 96, sequence_number := 1000,
    timestamp := 48000, ssrc := 77, payload := [1, 2, 3],
    max_payload_size := 100 }

/-- Claim C1 counterexample: the round trip fails for the short-form
`DoublePERC` engine even on a keyed session with a lossless engine and a
payload well inside `max_capacity - ohb_len - auth_tag_len`: `Encrypt`
produces nothing (it always fails), so `Decrypt ∘ Encrypt` cannot return
the original payload. -/
theorem c1_counterexample :
    ¬ ∃ q, DoublePERC.Encrypt stTag10 pktC1 = some q ∧
      DoublePERC.Decrypt stTag10 q.payload = (true, pktC1.payload) := by
  rintro ⟨q, hq, hd⟩
  rw [doublePERC_encrypt_none] at hq
  exact Option.noConfusion hq

set_option maxRecDepth 10000 in
/-- Claim C1 witness: the amended round trip evaluated at the spec's
concrete scenario packet (160 payload bytes, tag 10) on the ideal
engine. -/
theorem c1_encrypt_decrypt_identity_witness :
    (idealCtx 10).Lossless 10 ∧
    pkt160.payload_type < 128 ∧ pkt160.sequence_number < 65536 ∧
    pkt160.timestamp < 4294967296 ∧ pkt160.ssrc < 4294967296 ∧
    pkt160.payload.length
      ≤ pkt160.max_payload_size - MediaCrypto.ohb_size - 10 ∧
    MediaCrypto.ohb_size + 10 ≤ pkt160.max_payload_size ∧
    (∃ q, MediaCrypto.Encrypt
        { session_ := some (idealCtx 10), rtp_auth_tag_len_ := 10,
          rtcp_auth_tag_len_ := 10 } pkt160 = some q ∧
      MediaCrypto.Decrypt
        { session_ := some (idealCtx 10), rtp_auth_tag_len_ := 10,
          rtcp_auth_tag_len_ := 10 } q.payload = (true, pkt160.payload) ∧
      parseOhbLong
        ((((idealCtx 10).unprotect (128 :: q.payload)
          (1 + q.payload.length)).2.1).drop 1)
        = some (pkt160.marker, pkt160.payload_type, pkt160.sequence_number,
            pkt160.timestamp, pkt160.ssrc)) :=
  ⟨idealCtx_lossless 10, by decide, by decide, by decide, by decide,
   by decide, by decide,
   c1_encrypt_decrypt_identity (idealCtx 10) 10 10 pkt160
     (idealCtx_lossless 10) (by decide) (by decide) (by decide) (by decide)
     (by decide) (by decide)⟩
